import Mathlib

/-!
Verification of the core of the PhotoFrame sample application
(src/REST/PhotoFrame/app.js): the pagination fetchers
(`libraryApiSearch`, `libraryApiGetAlbums`), the TTL caches and the
query store, and the request orchestration handlers (`returnPhotos`,
`returnError`, `/getQueue`, `/getAlbums`, `/loadFromAlbum`).

Modelling conventions for the JavaScript source:
- a JS value that may be `null`/`undefined` becomes an `Option`;
  `x != null` (loose inequality, false for both `null` and `undefined`)
  becomes `Option.isSome`;
- the upstream HTTP round trips inside the fetcher loops are modelled by
  a list of `UpstreamStep`s consumed one per call: `.ok r` is a resolved
  JSON response object, `.fail e` is a rejected promise (an exception
  thrown by `await request.post`/`request.get` and caught by the
  surrounding try/catch).  An exhausted list means the model supplied
  fewer upstream responses than the loop would consume (`none` /
  `.outOfResponses`), which is outside the scenario being described;
- `async` handlers run sequentially between awaits, so each handler is a
  pure function from (state, upstream steps, clock) to (response, state);
- the wall clock is an explicit `Nat` (milliseconds), threaded to the
  caches which expire lazily on read.
-/

namespace PhotoFrame

/-- A media item as consumed by the app: only the MIME type matters to the
core logic (app.js filters on `x.mimeType && x.mimeType.startsWith('image/')`);
`baseUrl` stands in for the rest of the payload so items stay distinguishable. -/
structure MediaItem where
  mimeType : Option String
  baseUrl : String
  deriving DecidableEq, Repr

/-- One element of the `mediaItems` array of an upstream response.  The array
may be sparse: `nullItem` is a falsy entry (removed by `.filter(x => x)`). -/
inductive RawItem where
  | nullItem
  | item (m : MediaItem)
  deriving DecidableEq, Repr

/-- Resolved JSON body of one `POST /v1/mediaItems:search` call:
optional `mediaItems` array and optional `nextPageToken`. -/
structure SearchResponse where
  mediaItems : Option (List RawItem)
  nextPageToken : Option String
  deriving DecidableEq, Repr

/-- The structured error object the app builds in the catch blocks and sends
with `res.send(data.error)`: `{code, name, message}`, each field possibly
`undefined` on the JS side. -/
structure StructuredError where
  code : Option Nat
  name : Option String
  message : Option String
  deriving DecidableEq, Repr

/-- An exception thrown by the transport layer (`request-promise`).
`nested` is `err.error.error`: the structured error payload when the upstream
wrapped one (a `StatusCodeError` carrying a parsed error body), `none` when
that expression is falsy.  `errName`, `statusCode`, `errMessage` are
`err.name`, `err.statusCode` (absent on pure transport failures) and
`err.message`. -/
structure TransportException where
  nested : Option StructuredError
  errName : String
  statusCode : Option Nat
  errMessage : String
  deriving DecidableEq, Repr

/-- The catch-block conversion, app.js:501-502 (and identically 550-551):
`error = err.error.error || {name: err.name, code: err.statusCode, message: err.message}`. -/
def extractError (err : TransportException) : StructuredError :=
  match err.nested with
  | some e => e
  | none => { code := err.statusCode, name := some err.errName, message := some err.errMessage }

/-- A search filter object, app.js:237-266.  Claims never inspect its
contents, only its presence, so only the fields set by the app are kept. -/
structure Filters where
  mediaTypes : List String
  includedContentCategories : List String
  excludedContentCategories : List String
  deriving DecidableEq, Repr

/-- Search parameters submitted to the Library API: either a filter search or
an album search, plus the request-scoped `pageSize`/`pageToken` fields the
fetcher adds and `returnPhotos` strips. -/
structure SearchParameters where
  filters : Option Filters
  albumId : Option String
  pageSize : Option Nat
  pageToken : Option String
  deriving DecidableEq, Repr

/-- String prefix test, implemented on the character list (extensionally the
same as `String.startsWith`, but kernel-reducible so concrete witnesses can
be checked by `decide`). -/
def strStartsWith (s p : String) : Bool :=
  List.isPrefixOf p.data s.data

/-- `x.mimeType && x.mimeType.startsWith('image/')`, app.js:480.  A missing
(or, vacuously for the prefix test, empty) MIME type is falsy and fails the
filter. -/
def isImage (m : MediaItem) : Bool :=
  match m.mimeType with
  | some s => strStartsWith s ("image/")
  | none => false

/-- Normalization of one response page, app.js:476-481:
`result && result.mediaItems ? result.mediaItems.filter(x => x).filter(image) : []`. -/
def normalizeItems : Option (List RawItem) → List MediaItem
  | some raw =>
      (raw.filterMap (fun r => match r with | .nullItem => none | .item m => some m)).filter isImage
  | none => []

/-- One upstream round trip of the media-item search loop. -/
inductive UpstreamStep where
  | ok (r : SearchResponse)
  | fail (e : TransportException)
  deriving DecidableEq, Repr

/-- The value of `libraryApiSearch`: `return {photos, parameters, error}`,
app.js:507. -/
structure SearchResult where
  photos : List MediaItem
  parameters : SearchParameters
  error : Option StructuredError
  deriving DecidableEq, Repr

/-- The do/while loop of `libraryApiSearch`, app.js:457-495, with the
try/catch of 454-504 folded in: a thrown step ends the loop and yields the
photos accumulated so far plus the extracted error; a resolved step appends
the normalized items, overwrites `parameters.pageToken` with
`result.nextPageToken`, and continues iff
`photos.length < photosToLoad && parameters.pageToken != null`. -/
def searchIterate (photosToLoad : Nat) :
    List UpstreamStep → List MediaItem → SearchParameters → Option SearchResult
  | [], _, _ => none
  | .fail err :: _, photos, parameters =>
      some { photos := photos, parameters := parameters, error := some (extractError err) }
  | .ok result :: rest, photos, parameters =>
      let photos2 := photos ++ normalizeItems result.mediaItems
      let parameters2 := { parameters with pageToken := result.nextPageToken }
      if photos2.length < photosToLoad ∧ parameters2.pageToken ≠ none then
        searchIterate photosToLoad rest photos2 parameters2
      else
        some { photos := photos2, parameters := parameters2, error := none }

/-- `libraryApiSearch(authToken, parameters)`, app.js:447-508.
`photosToLoad` and `searchPageSize` are `config.photosToLoad` and
`config.searchPageSize` (config.js is not part of the sources, so they are
parameters here).  Sets `parameters.pageSize = config.searchPageSize` before
entering the loop (app.js:452). -/
def libraryApiSearch (photosToLoad searchPageSize : Nat)
    (steps : List UpstreamStep) (parameters : SearchParameters) : Option SearchResult :=
  searchIterate photosToLoad steps [] { parameters with pageSize := some searchPageSize }

/-- An album record; only identity matters to the core logic. -/
structure Album where
  id : String
  title : String
  deriving DecidableEq, Repr

/-- One element of the `albums` array of an upstream response; `nullAlbum` is
a falsy entry (removed by `.filter(x => !!x)`, app.js:537). -/
inductive RawAlbum where
  | nullAlbum
  | album (a : Album)
  deriving DecidableEq, Repr

/-- Resolved JSON body of one `GET /v1/albums` call. -/
structure AlbumsResponse where
  albums : Option (List RawAlbum)
  nextPageToken : Option String
  deriving DecidableEq, Repr

/-- One upstream round trip of the album-listing loop. -/
inductive AlbumStep where
  | ok (r : AlbumsResponse)
  | fail (e : TransportException)
  deriving DecidableEq, Repr

/-- The value of `libraryApiGetAlbums`: `return {albums, error}`, app.js:556. -/
structure AlbumsResult where
  albums : List Album
  error : Option StructuredError
  deriving DecidableEq, Repr

/-- Query-string parameters of the album listing, app.js:516/541. -/
structure AlbumParameters where
  pageSize : Option Nat
  pageToken : Option String
  deriving DecidableEq, Repr

/-- `if (result && result.albums) {... albums = albums.concat(items)}`,
app.js:534-540: append the truthy entries of the response's `albums` array,
if the array is present. -/
def appendAlbums (albums : List Album) (result : AlbumsResponse) : List Album :=
  match result.albums with
  | some l =>
      albums ++ l.filterMap (fun r => match r with | .nullAlbum => none | .album a => some a)
  | none => albums

/-- The do/while loop of `libraryApiGetAlbums`, app.js:521-544, with the
try/catch folded in as for the search loop.  If the response has an `albums`
array, its truthy entries are appended; the loop continues iff
`parameters.pageToken != null` — there is no count threshold. -/
def albumsIterate :
    List AlbumStep → List Album → AlbumParameters → Option AlbumsResult
  | [], _, _ => none
  | .fail err :: _, albums, _ =>
      some { albums := albums, error := some (extractError err) }
  | .ok result :: rest, albums, parameters =>
      let albums2 := appendAlbums albums result
      let parameters2 := { parameters with pageToken := result.nextPageToken }
      if parameters2.pageToken ≠ none then
        albumsIterate rest albums2 parameters2
      else
        some { albums := albums2, error := none }

/-- `libraryApiGetAlbums(authToken)`, app.js:512-557.  `albumPageSize` is
`config.albumPageSize`. -/
def libraryApiGetAlbums (albumPageSize : Nat) (steps : List AlbumStep) : Option AlbumsResult :=
  albumsIterate steps [] { pageSize := some albumPageSize, pageToken := none }

/-- Modelled from the spec: the repository's per-user TTL caches are
`node-persist` instances (a dependency whose source is not under src/); only
their configuration (`ttl: 3300000` for the media-item cache, app.js:49-52,
and `ttl: 600000` for the album cache, app.js:64-67) is in the sources.
Per spec section 4.2 and the CacheEntry lifecycle of section 3: one slot per
user holding the value and the time it was set; `set` overwrites any prior
entry; `get` evaluates expiry lazily at read time and treats an entry as
absent once its TTL has elapsed (an entry set at time `t` is readable while
`now < t + ttl`); no background sweep. -/
structure Cache (α : Type) where
  ttl : Nat
  entries : List (String × α × Nat)
  deriving DecidableEq, Repr

/-- Modelled from the spec: `setItemSync(userId, value)` — single-slot
overwrite, stamped with the current time. -/
def Cache.setItem {α : Type} (c : Cache α) (userId : String) (v : α) (now : Nat) : Cache α :=
  { c with entries := (userId, v, now) :: c.entries.filter (fun e => !(e.1 == userId)) }

/-- Modelled from the spec: `getItem(userId)` with lazy expiry at read time. -/
def Cache.getItem {α : Type} (c : Cache α) (userId : String) (now : Nat) : Option α :=
  match c.entries.find? (fun e => e.1 == userId) with
  | some (_, v, t) => if now < t + c.ttl then some v else none
  | none => none

/-- Modelled from the spec: `removeItem(userId)`. -/
def Cache.removeItem {α : Type} (c : Cache α) (userId : String) : Cache α :=
  { c with entries := c.entries.filter (fun e => !(e.1 == userId)) }

/-- `ttl: 3300000` (55 minutes), app.js:51. -/
def mediaItemCacheTtl : Nat := 3300000

/-- `ttl: 600000` (10 minutes), app.js:66. -/
def albumCacheTtl : Nat := 600000

/-- The value stored per user in the query store: `{parameters: searchParameter}`,
app.js:414. -/
structure UserRecord where
  parameters : SearchParameters
  deriving DecidableEq, Repr

/-- Modelled from the spec: the query store is a `node-persist` instance with
no TTL (app.js:78), so it is a plain per-user map that never expires. -/
structure Storage where
  entries : List (String × UserRecord)
  deriving DecidableEq, Repr

/-- `storage.setItemSync(userId, value)`: single-slot overwrite. -/
def Storage.setItem (s : Storage) (userId : String) (r : UserRecord) : Storage :=
  { entries := (userId, r) :: s.entries.filter (fun e => !(e.1 == userId)) }

/-- `storage.getItem(userId)`. -/
def Storage.getItem (s : Storage) (userId : String) : Option UserRecord :=
  match s.entries.find? (fun e => e.1 == userId) with
  | some (_, r) => some r
  | none => none

/-- Body of an HTTP response of the media-item routes.  `errorObject` is
`res.send(data.error)` — the bare error object, app.js:427; `emptyObject` is
`res.send({})`, app.js:371. -/
inductive QueueBody where
  | photosAndParameters (photos : List MediaItem) (parameters : SearchParameters)
  | errorObject (e : StructuredError)
  | emptyObject
  deriving DecidableEq, Repr

/-- An outward HTTP response: `res.status(code).send(body)`. -/
structure Response (β : Type) where
  status : Nat
  body : β
  deriving DecidableEq, Repr

/-- `const statusCode = data.error.code || 500`, app.js:425.  JS `||` falls
through on any falsy value, so both a missing code and a zero code yield 500. -/
def errorStatus (e : StructuredError) : Nat :=
  match e.code with
  | some c => if c = 0 then 500 else c
  | none => 500

/-- `returnError(res, data)`, app.js:422-428: responds with
`data.error.code || 500` and sends `data.error` itself as the body. -/
def returnError (e : StructuredError) : Response QueueBody :=
  { status := errorStatus e, body := QueueBody.errorObject e }

/-- `delete searchParameter.pageToken; delete searchParameter.pageSize`,
app.js:407-408. -/
def stripRequestFields (p : SearchParameters) : SearchParameters :=
  { p with pageToken := none, pageSize := none }

/-- The mutable state touched by the media-item routes: the media-item cache
and the query store. -/
structure PhotosState where
  mediaItemCache : Cache (List MediaItem)
  storage : Storage
  deriving DecidableEq, Repr

/-- `returnPhotos(res, userId, data, searchParameter)`, app.js:400-419.
On `data.error`, delegates to `returnError` and touches no state; otherwise
strips `pageToken`/`pageSize`, caches `data.photos`, stores
`{parameters: searchParameter}`, and responds 200 with both. -/
def returnPhotos (userId : String) (data : SearchResult) (searchParameter : SearchParameters)
    (now : Nat) (st : PhotosState) : Response QueueBody × PhotosState :=
  match data.error with
  | some e => (returnError e, st)
  | none =>
      let p := stripRequestFields searchParameter
      ( { status := 200, body := QueueBody.photosAndParameters data.photos p },
        { mediaItemCache := st.mediaItemCache.setItem userId data.photos now,
          storage := st.storage.setItem userId { parameters := p } } )

/-- Outcome of running one route handler.  `jsTypeError` marks an unhandled
JavaScript TypeError (a property access on `undefined`); `outOfResponses` is
the model artifact of an exhausted upstream step list. -/
inductive Outcome (β : Type) where
  | result (r : β)
  | jsTypeError
  | outOfResponses
  deriving DecidableEq, Repr

/-- `app.get('/getQueue')`, app.js:341-373.  Reads the media-item cache and
the query store; on a cache hit sends the cached photos paired with
`stored.parameters` (an unguarded dereference: if `stored` is absent this is
a TypeError); on a miss with a stored record, replays the stored query
through `libraryApiSearch` and hands the result to `returnPhotos`; otherwise
sends `{}` with status 200. -/
def getQueue (userId : String) (now : Nat) (st : PhotosState)
    (photosToLoad searchPageSize : Nat) (steps : List UpstreamStep) :
    Outcome (Response QueueBody × PhotosState) :=
  match st.mediaItemCache.getItem userId now with
  | some photos =>
      match st.storage.getItem userId with
      | some r =>
          .result ({ status := 200, body := QueueBody.photosAndParameters photos r.parameters }, st)
      | none => .jsTypeError
  | none =>
      match st.storage.getItem userId with
      | some r =>
          match libraryApiSearch photosToLoad searchPageSize steps r.parameters with
          | some data => .result (returnPhotos userId data r.parameters now st)
          | none => .outOfResponses
      | none => .result ({ status := 200, body := QueueBody.emptyObject }, st)

/-- Body of an HTTP response of the album route: either the whole
`{albums, error}` object (`res.send(data)` / `res.send(cachedAlbums)`,
app.js:313/329) or the bare error object (`returnError`). -/
inductive AlbumsBody where
  | albumsData (d : AlbumsResult)
  | errorObject (e : StructuredError)
  deriving DecidableEq, Repr

/-- `app.get('/getAlbums')`, app.js:304-333.  On an album-cache hit sends the
cached value; on a miss calls `libraryApiGetAlbums`; on error responds via
`returnError` and removes the user's album cache entry; on success responds
200 with the data and caches it. -/
def getAlbums (userId : String) (now : Nat) (c : Cache AlbumsResult)
    (albumPageSize : Nat) (steps : List AlbumStep) :
    Outcome (Response AlbumsBody × Cache AlbumsResult) :=
  match c.getItem userId now with
  | some cachedAlbums => .result ({ status := 200, body := .albumsData cachedAlbums }, c)
  | none =>
      match libraryApiGetAlbums albumPageSize steps with
      | none => .outOfResponses
      | some data =>
          match data.error with
          | some e =>
              .result ({ status := errorStatus e, body := .errorObject e }, c.removeItem userId)
          | none =>
              .result ({ status := 200, body := .albumsData data }, c.setItem userId data now)

/-- `app.post('/loadFromAlbum')`, app.js:284-301: builds
`parameters = {albumId}` (no filters), calls `libraryApiSearch`, then
`returnPhotos`. -/
def loadFromAlbum (userId albumId : String) (now : Nat) (st : PhotosState)
    (photosToLoad searchPageSize : Nat) (steps : List UpstreamStep) :
    Outcome (Response QueueBody × PhotosState) :=
  let parameters : SearchParameters :=
    { filters := none, albumId := some albumId, pageSize := none, pageToken := none }
  match libraryApiSearch photosToLoad searchPageSize steps parameters with
  | some data => .result (returnPhotos userId data parameters now st)
  | none => .outOfResponses

/-- Shape of the error response body, for comparing the code's behavior with
the spec's stated shape: `plainError` is the bare `{code, name, message}`
object, `wrappedError` is `{error: {code, name, message}}`. -/
inductive ErrorBodyShape where
  | plainError (code : Option Nat) (errorName : Option String) (message : Option String)
  | wrappedError (code : Option Nat) (errorName : Option String) (message : Option String)
  deriving DecidableEq, Repr

/-- The body `returnError` actually sends, as a shape: `res.send(data.error)`
sends the error object itself. -/
def returnErrorBodyShape (e : StructuredError) : ErrorBodyShape :=
  ErrorBodyShape.plainError e.code e.name e.message

/-- Modelled from the spec: "Response shape on error:
`{error: {code, name, message}}`" — the error object wrapped under an
`error` key. -/
def specErrorBodyShape (e : StructuredError) : ErrorBodyShape :=
  ErrorBodyShape.wrappedError e.code e.name e.message

/-! ### Helper lemmas on the cache and store models -/

/-- `find?` ignores a `filter` that only removes elements the predicate
rejects anyway. -/
theorem findFilterComm {α : Type} (l : List α) (p q : α → Bool)
    (h : ∀ x, p x = true → q x = true) :
    (l.filter q).find? p = l.find? p := by
  induction l with
  | nil => rfl
  | cons a l ih =>
    by_cases hq : q a = true
    · by_cases hp : p a = true
      · simp [List.filter_cons, hq, List.find?_cons, hp]
      · simp only [Bool.not_eq_true] at hp
        simp [List.filter_cons, hq, List.find?_cons, hp, ih]
    · have hp : p a = false := by
        cases hpa : p a
        · rfl
        · exact absurd (h a hpa) hq
      simp only [Bool.not_eq_true] at hq
      simp [List.filter_cons, hq, List.find?_cons, hp, ih]

/-- Reading back the key just written: present while the TTL has not
elapsed, absent afterwards. -/
theorem Cache.getItem_setItem_self {α : Type} (c : Cache α) (u : String) (v : α)
    (tSet tRead : Nat) :
    (c.setItem u v tSet).getItem u tRead =
      if tRead < tSet + c.ttl then some v else none := by
  simp [Cache.setItem, Cache.getItem, List.find?_cons]

/-- Writing one user's slot leaves every other user's read unchanged. -/
theorem Cache.getItem_setItem_ne {α : Type} (c : Cache α) (u w : String) (v : α)
    (tSet tRead : Nat) (h : w ≠ u) :
    (c.setItem u v tSet).getItem w tRead = c.getItem w tRead := by
  have hne : (u == w) = false := by simpa using fun hc => h hc.symm
  have hf : (c.entries.filter (fun e => !(e.1 == u))).find? (fun e => e.1 == w) =
      c.entries.find? (fun e => e.1 == w) := by
    refine findFilterComm _ _ _ (fun x hx => ?_)
    have hxw : x.1 = w := by simpa using hx
    simpa [hxw] using h
  simp [Cache.setItem, Cache.getItem, List.find?_cons, hne, hf]

/-- Reading back the record just stored. -/
theorem storageGetItem_setItem_self (s : Storage) (u : String) (r : UserRecord) :
    (s.setItem u r).getItem u = some r := by
  simp [Storage.setItem, Storage.getItem, List.find?_cons]

/-- Storing one user's record leaves every other user's read unchanged. -/
theorem storageGetItem_setItem_ne (s : Storage) (u w : String) (r : UserRecord)
    (h : w ≠ u) : (s.setItem u r).getItem w = s.getItem w := by
  have hne : (u == w) = false := by simpa using fun hc => h hc.symm
  have hf : (s.entries.filter (fun e => !(e.1 == u))).find? (fun e => e.1 == w) =
      s.entries.find? (fun e => e.1 == w) := by
    refine findFilterComm _ _ _ (fun x hx => ?_)
    have hxw : x.1 = w := by simpa using hx
    simpa [hxw] using h
  simp [Storage.setItem, Storage.getItem, List.find?_cons, hne, hf]

/-! ### Concrete fixtures used by the witnesses -/

/-- A still image item. -/
def imgItem : MediaItem := { mimeType := some ("image/jpeg"), baseUrl := "img1" }

/-- A second still image item. -/
def imgItem2 : MediaItem := { mimeType := some ("image/png"), baseUrl := "img2" }

/-- A video item (not an image). -/
def vidItem : MediaItem := { mimeType := some ("video/mp4"), baseUrl := "vid1" }

/-- Empty search parameters (no filters, no album, no paging fields). -/
def emptySearchParameters : SearchParameters :=
  { filters := none, albumId := none, pageSize := none, pageToken := none }

/-- Initial state: fresh caches and an empty query store. -/
def emptyPhotosState : PhotosState :=
  { mediaItemCache := { ttl := mediaItemCacheTtl, entries := [] },
    storage := { entries := [] } }

/-- Search parameters that carry the request-scoped paging fields. -/
def tokenedParameters : SearchParameters :=
  { emptySearchParameters with pageToken := some ("t9"), pageSize := some 50 }

/-- The parameters `/loadFromAlbum` builds: only the album identifier. -/
def albumOnlyParameters : SearchParameters :=
  { filters := none, albumId := some ("album1"), pageSize := none, pageToken := none }

/-- An upstream page holding a single video item and no further token. -/
def videoPage : SearchResponse :=
  { mediaItems := some [RawItem.item vidItem], nextPageToken := none }

/-- An upstream page holding a video and an image and no further token. -/
def mixedPage : SearchResponse :=
  { mediaItems := some [RawItem.item vidItem, RawItem.item imgItem], nextPageToken := none }

/-- A state in which user1 has both a fresh media-item cache entry and a
stored query record. -/
def storedState : PhotosState :=
  { mediaItemCache := { ttl := mediaItemCacheTtl, entries := [("user1", [imgItem], 0)] },
    storage := { entries := [("user1", { parameters := albumOnlyParameters })] } }

/-- A state in which user1 has a stored query record but no cache entry. -/
def replayState : PhotosState :=
  { mediaItemCache := { ttl := mediaItemCacheTtl, entries := [] },
    storage := { entries := [("user1", { parameters := albumOnlyParameters })] } }

/-- A state violating the cache/store coupling: user1 has a media-item cache
entry but no query store record. -/
def orphanState : PhotosState :=
  { mediaItemCache := { ttl := mediaItemCacheTtl, entries := [("user1", [imgItem], 0)] },
    storage := { entries := [] } }

/-- A pure transport failure: no nested upstream payload, no status code. -/
def transportErr : TransportException :=
  { nested := none, errName := "RequestError", statusCode := none,
    errMessage := "connect ECONNREFUSED" }

/-- A sample album. -/
def albumA : Album := { id := "a1", title := "Holiday" }

/-- An upstream album page with one real album, one sparse entry, no token. -/
def albumsPage : AlbumsResponse :=
  { albums := some [RawAlbum.album albumA, RawAlbum.nullAlbum], nextPageToken := none }

/-- A fresh album cache. -/
def emptyAlbumCache : Cache AlbumsResult := { ttl := albumCacheTtl, entries := [] }

/-- An album-listing result as it is cached: the `{albums, error}` object. -/
def cachedAlbumsResult : AlbumsResult := { albums := [albumA], error := none }

/-- An album cache holding a fresh entry for user1. -/
def warmAlbumCache : Cache AlbumsResult :=
  { ttl := albumCacheTtl, entries := [("user1", cachedAlbumsResult, 0)] }

/-- A structured upstream error with a code. -/
def sampleError : StructuredError :=
  { code := some 404, name := some ("Not Found"), message := some ("Album not found") }

/-- A structured error with no code at all. -/
def codelessError : StructuredError :=
  { code := none, name := some ("RequestError"), message := some ("socket hang up") }

/-! ### Claims -/

/-- C1: the media-item pagination loop repeats a remote call, appends the
normalized results of each page, and replaces `parameters.pageToken` with the
token from the response; it stops exactly when the accumulated item count
reaches `config.photosToLoad` or the response supplies no continuation token,
and in the latter case it terminates after that call regardless of the count
(the right-hand side of the stopping equation does not mention the remaining
upstream responses). -/
theorem c1_search_pagination_loop (photosToLoad : Nat) (r : SearchResponse)
    (rest : List UpstreamStep) (photos : List MediaItem) (parameters : SearchParameters) :
    ((photos ++ normalizeItems r.mediaItems).length < photosToLoad → r.nextPageToken ≠ none →
      searchIterate photosToLoad (UpstreamStep.ok r :: rest) photos parameters =
        searchIterate photosToLoad rest (photos ++ normalizeItems r.mediaItems)
          { parameters with pageToken := r.nextPageToken })
    ∧ (photosToLoad ≤ (photos ++ normalizeItems r.mediaItems).length ∨ r.nextPageToken = none →
      searchIterate photosToLoad (UpstreamStep.ok r :: rest) photos parameters =
        some { photos := photos ++ normalizeItems r.mediaItems,
               parameters := { parameters with pageToken := r.nextPageToken },
               error := none }) := by
  constructor
  · intro hlt htok
    simp only [searchIterate]
    rw [if_pos]
    exact ⟨hlt, by simpa using htok⟩
  · intro h
    simp only [searchIterate]
    rw [if_neg]
    intro hc
    rcases h with h | h
    · exact absurd hc.1 (by omega)
    · exact absurd (by simpa using hc.2) (by simp [h])

/-- Witness for C1: with a minimum of 2 and a first page holding one image
plus a token, the loop recurses (first conjunct); with a page holding one
image and no token it stops at once even though the minimum is unmet
(second conjunct). -/
theorem c1_search_pagination_loop_witness :
    (searchIterate 2
        (UpstreamStep.ok { mediaItems := some [RawItem.item imgItem],
                           nextPageToken := some ("t1") } :: [])
        [] emptySearchParameters =
      searchIterate 2 []
        ([] ++ normalizeItems (some [RawItem.item imgItem]))
        { emptySearchParameters with pageToken := some ("t1") })
    ∧ (searchIterate 2
        (UpstreamStep.ok { mediaItems := some [RawItem.item imgItem],
                           nextPageToken := none } :: [])
        [] emptySearchParameters =
      some { photos := [] ++ normalizeItems (some [RawItem.item imgItem]),
             parameters := { emptySearchParameters with pageToken := none },
             error := none }) :=
  ⟨(c1_search_pagination_loop 2
      { mediaItems := some [RawItem.item imgItem], nextPageToken := some ("t1") }
      [] [] emptySearchParameters).1 (by decide) (by decide),
   (c1_search_pagination_loop 2
      { mediaItems := some [RawItem.item imgItem], nextPageToken := none }
      [] [] emptySearchParameters).2 (Or.inr rfl)⟩

/-- C2: if the first upstream page succeeds but leaves the loop unfinished
(count below the minimum and a token present) and the second call fails with
status 401, `libraryApiSearch` returns exactly the items of page one together
with an error carrying code 401, and `returnPhotos` on that result produces
the 401 error response while leaving the media-item cache and the query store
exactly as they were. -/
theorem c2_partial_failure_not_cached (userId : String)
    (now photosToLoad searchPageSize : Nat) (r1 : SearchResponse)
    (err : TransportException) (parameters : SearchParameters) (st : PhotosState)
    (hcount : (normalizeItems r1.mediaItems).length < photosToLoad)
    (htok : r1.nextPageToken ≠ none)
    (hcode : (extractError err).code = some 401) :
    libraryApiSearch photosToLoad searchPageSize
        [UpstreamStep.ok r1, UpstreamStep.fail err] parameters =
      some { photos := normalizeItems r1.mediaItems,
             parameters := { parameters with pageSize := some searchPageSize,
                                             pageToken := r1.nextPageToken },
             error := some (extractError err) }
    ∧ returnPhotos userId
        { photos := normalizeItems r1.mediaItems,
          parameters := { parameters with pageSize := some searchPageSize,
                                          pageToken := r1.nextPageToken },
          error := some (extractError err) } parameters now st =
      ({ status := 401, body := QueueBody.errorObject (extractError err) }, st) := by
  constructor
  · simp only [libraryApiSearch, searchIterate]
    rw [if_pos]
    · simp [searchIterate]
    · exact ⟨by simpa using hcount, by simpa using htok⟩
  · simp [returnPhotos, returnError, errorStatus, hcode]

/-- Witness for C2: one image on page one, minimum 2, a `StatusCodeError`
carrying a nested 401 payload on page two. -/
theorem c2_partial_failure_not_cached_witness :
    libraryApiSearch 2 7
        [UpstreamStep.ok { mediaItems := some [RawItem.item imgItem],
                           nextPageToken := some ("t1") },
         UpstreamStep.fail { nested := some { code := some 401,
                                              name := some ("Unauthorized"),
                                              message := some ("Invalid Credentials") },
                             errName := "StatusCodeError", statusCode := some 401,
                             errMessage := "401" }] emptySearchParameters =
      some { photos := normalizeItems (some [RawItem.item imgItem]),
             parameters := { emptySearchParameters with pageSize := some 7,
                                                        pageToken := some ("t1") },
             error := some (extractError
               { nested := some { code := some 401, name := some ("Unauthorized"),
                                  message := some ("Invalid Credentials") },
                 errName := "StatusCodeError", statusCode := some 401,
                 errMessage := "401" }) }
    ∧ returnPhotos ("user1")
        { photos := normalizeItems (some [RawItem.item imgItem]),
          parameters := { emptySearchParameters with pageSize := some 7,
                                                     pageToken := some ("t1") },
          error := some (extractError
            { nested := some { code := some 401, name := some ("Unauthorized"),
                               message := some ("Invalid Credentials") },
              errName := "StatusCodeError", statusCode := some 401,
              errMessage := "401" }) } emptySearchParameters 0 emptyPhotosState =
      ({ status := 401,
         body := QueueBody.errorObject (extractError
           { nested := some { code := some 401, name := some ("Unauthorized"),
                              message := some ("Invalid Credentials") },
             errName := "StatusCodeError", statusCode := some 401,
             errMessage := "401" }) }, emptyPhotosState) :=
  c2_partial_failure_not_cached ("user1") 0 2 7
    { mediaItems := some [RawItem.item imgItem], nextPageToken := some ("t1") }
    { nested := some { code := some 401, name := some ("Unauthorized"),
                       message := some ("Invalid Credentials") },
      errName := "StatusCodeError", statusCode := some 401, errMessage := "401" }
    emptySearchParameters emptyPhotosState (by decide) (by decide) (by decide)

/-- C5: after any successful store performed by `returnPhotos`, the record
kept in the query store holds search parameters with no `pageToken` and no
`pageSize`, even when the parameters passed in carried them. -/
theorem c5_store_strips_request_fields (userId : String) (data : SearchResult)
    (searchParameter : SearchParameters) (now : Nat) (st : PhotosState)
    (hok : data.error = none) :
    (returnPhotos userId data searchParameter now st).2.storage.getItem userId =
        some { parameters := stripRequestFields searchParameter }
    ∧ (stripRequestFields searchParameter).pageToken = none
    ∧ (stripRequestFields searchParameter).pageSize = none := by
  refine ⟨?_, rfl, rfl⟩
  simp [returnPhotos, hok, storageGetItem_setItem_self]

/-- Witness for C5: storing parameters that do carry a page token and a page
size; the stored record has both stripped. -/
theorem c5_store_strips_request_fields_witness :
    (returnPhotos ("user1") { photos := [imgItem], parameters := emptySearchParameters,
                              error := none }
        tokenedParameters 0 emptyPhotosState).2.storage.getItem ("user1") =
      some { parameters := stripRequestFields tokenedParameters }
    ∧ (stripRequestFields tokenedParameters).pageToken = none
    ∧ (stripRequestFields tokenedParameters).pageSize = none :=
  c5_store_strips_request_fields ("user1")
    { photos := [imgItem], parameters := emptySearchParameters, error := none }
    tokenedParameters 0 emptyPhotosState rfl

/-- Every normalized item passes the image filter. -/
theorem normalizeItems_isImage (o : Option (List RawItem)) :
    ∀ m ∈ normalizeItems o, isImage m = true := by
  intro m hm
  cases o with
  | none => simp [normalizeItems] at hm
  | some raw =>
    simp only [normalizeItems] at hm
    exact (List.mem_filter.mp hm).2

/-- The search loop only ever accumulates items passing the image filter,
whatever the outcome. -/
theorem searchIterate_all_images (photosToLoad : Nat) (steps : List UpstreamStep) :
    ∀ (photos : List MediaItem) (parameters : SearchParameters) (res : SearchResult),
      searchIterate photosToLoad steps photos parameters = some res →
      (∀ m ∈ photos, isImage m = true) → ∀ m ∈ res.photos, isImage m = true := by
  induction steps with
  | nil =>
    intro photos parameters res h
    simp [searchIterate] at h
  | cons s rest ih =>
    intro photos parameters res h hall
    cases s with
    | fail e =>
      simp only [searchIterate] at h
      cases h
      exact hall
    | ok r =>
      have hall2 : ∀ m ∈ photos ++ normalizeItems r.mediaItems, isImage m = true := by
        intro m hm
        rcases List.mem_append.mp hm with hm | hm
        · exact hall m hm
        · exact normalizeItems_isImage r.mediaItems m hm
      simp only [searchIterate] at h
      split at h
      · exact ih _ _ _ h hall2
      · cases h
        exact hall2

/-- C3, counterexample: `/loadFromAlbum` for an upstream page that holds a
video item produces a response whose photo list is empty — the video is
removed by the unconditional client-side image filter in `libraryApiSearch`
(app.js:476-481), so non-image items can never appear in the result list. -/
theorem c3_counterexample :
    loadFromAlbum ("user1") ("album1") 0 emptyPhotosState 100 50
        [UpstreamStep.ok videoPage] =
      Outcome.result
        ({ status := 200, body := QueueBody.photosAndParameters [] albumOnlyParameters },
         { mediaItemCache := { ttl := mediaItemCacheTtl, entries := [("user1", [], 0)] },
           storage := { entries := [("user1", { parameters := albumOnlyParameters })] } })
    ∧ RawItem.item vidItem ∈ (videoPage.mediaItems.getD [])
    ∧ isImage vidItem = false := by decide

/-- C3, amended: a new album selection submits SearchParameters containing
only the album identifier (no upstream media-type filter), but
`libraryApiSearch` still applies its client-side image-only MIME filter, so
every item in the resulting photo list is an image — non-image items returned
by the upstream for that album are removed, not surfaced. -/
theorem c3_album_search_filters_images (userId albumId : String) (now : Nat)
    (st : PhotosState) (photosToLoad searchPageSize : Nat) (steps : List UpstreamStep)
    (resp : Response QueueBody) (st2 : PhotosState)
    (photos : List MediaItem) (p : SearchParameters)
    (h : loadFromAlbum userId albumId now st photosToLoad searchPageSize steps =
      Outcome.result (resp, st2))
    (hb : resp.body = QueueBody.photosAndParameters photos p) :
    ∀ m ∈ photos, isImage m = true := by
  simp only [loadFromAlbum] at h
  cases hsearch : libraryApiSearch photosToLoad searchPageSize steps
      { filters := none, albumId := some albumId, pageSize := none, pageToken := none } with
  | none => rw [hsearch] at h; cases h
  | some data =>
    rw [hsearch] at h
    have hrp : returnPhotos userId data
        { filters := none, albumId := some albumId, pageSize := none, pageToken := none }
        now st = (resp, st2) := Outcome.result.inj h
    cases herr : data.error with
    | some e =>
      simp only [returnPhotos, herr] at hrp
      have hresp : returnError e = resp := congrArg Prod.fst hrp
      rw [← hresp] at hb
      simp [returnError] at hb
    | none =>
      simp only [returnPhotos, herr] at hrp
      have hbody : QueueBody.photosAndParameters data.photos (stripRequestFields
          { filters := none, albumId := some albumId, pageSize := none,
            pageToken := none }) = resp.body :=
        congrArg (fun q => Response.body q.1) hrp
      rw [hb] at hbody
      have hphotos : photos = data.photos := (QueueBody.photosAndParameters.inj hbody).1.symm
      subst hphotos
      have hiter : searchIterate photosToLoad steps []
          { filters := none, albumId := some albumId, pageSize := some searchPageSize,
            pageToken := none } = some data := by
        simpa [libraryApiSearch] using hsearch
      exact searchIterate_all_images photosToLoad steps [] _ data hiter (by simp)

/-- Witness for the amended C3: an album page mixing a video and an image
yields exactly the image, and every returned item passes the image filter. -/
theorem c3_album_search_filters_images_witness :
    isImage imgItem = true :=
  c3_album_search_filters_images ("user1") ("album1") 0 emptyPhotosState 100 50
    [UpstreamStep.ok mixedPage]
    { status := 200, body := QueueBody.photosAndParameters [imgItem] albumOnlyParameters }
    { mediaItemCache := { ttl := mediaItemCacheTtl, entries := [("user1", [imgItem], 0)] },
      storage := { entries := [("user1", { parameters := albumOnlyParameters })] } }
    [imgItem] albumOnlyParameters (by decide) rfl imgItem (by decide)

/-- C4: `getQueue` follows the three-branch contract: on a media-item cache
hit it returns the cached photos paired with the parameters from the query
store; on a miss with a stored query it replays that query through the
fetcher and, on success, re-stores the (stripped) parameters and re-caches
the photos; with neither it returns an empty response object with status 200
— the fresh-user case is not an error. -/
theorem c4_getQueue_three_branches (userId : String) (now : Nat) (st : PhotosState)
    (photosToLoad searchPageSize : Nat) (steps : List UpstreamStep) :
    (∀ photos r, st.mediaItemCache.getItem userId now = some photos →
      st.storage.getItem userId = some r →
      getQueue userId now st photosToLoad searchPageSize steps =
        Outcome.result
          ({ status := 200, body := QueueBody.photosAndParameters photos r.parameters }, st))
    ∧ (∀ r data, st.mediaItemCache.getItem userId now = none →
      st.storage.getItem userId = some r →
      libraryApiSearch photosToLoad searchPageSize steps r.parameters = some data →
      getQueue userId now st photosToLoad searchPageSize steps =
        Outcome.result (returnPhotos userId data r.parameters now st)
      ∧ (data.error = none →
          (returnPhotos userId data r.parameters now st).2 =
            { mediaItemCache := st.mediaItemCache.setItem userId data.photos now,
              storage := st.storage.setItem userId
                { parameters := stripRequestFields r.parameters } }))
    ∧ (st.mediaItemCache.getItem userId now = none →
      st.storage.getItem userId = none →
      getQueue userId now st photosToLoad searchPageSize steps =
        Outcome.result ({ status := 200, body := QueueBody.emptyObject }, st)) := by
  refine ⟨?_, ?_, ?_⟩
  · intro photos r hc hs
    simp [getQueue, hc, hs]
  · intro r data hc hs hsearch
    constructor
    · simp [getQueue, hc, hs, hsearch]
    · intro herr
      simp [returnPhotos, herr]
  · intro hc hs
    simp [getQueue, hc, hs]

/-- Witness for C4, exercising all three branches on concrete states: a
cache hit, a replay of the stored album query against a one-page upstream,
and a fresh user. -/
theorem c4_getQueue_three_branches_witness :
    getQueue ("user1") 0 storedState 100 50 [] =
      Outcome.result
        ({ status := 200, body := QueueBody.photosAndParameters [imgItem] albumOnlyParameters },
         storedState)
    ∧ getQueue ("user1") 0 replayState 100 50 [UpstreamStep.ok mixedPage] =
      Outcome.result (returnPhotos ("user1")
        { photos := [imgItem],
          parameters := { albumOnlyParameters with pageSize := some 50, pageToken := none },
          error := none } albumOnlyParameters 0 replayState)
    ∧ getQueue ("user1") 0 emptyPhotosState 100 50 [] =
      Outcome.result ({ status := 200, body := QueueBody.emptyObject }, emptyPhotosState) :=
  ⟨(c4_getQueue_three_branches ("user1") 0 storedState 100 50 []).1
      [imgItem] { parameters := albumOnlyParameters } (by decide) (by decide),
   ((c4_getQueue_three_branches ("user1") 0 replayState 100 50
        [UpstreamStep.ok mixedPage]).2.1
      { parameters := albumOnlyParameters }
      { photos := [imgItem],
        parameters := { albumOnlyParameters with pageSize := some 50, pageToken := none },
        error := none } (by decide) (by decide) (by decide)).1,
   (c4_getQueue_three_branches ("user1") 0 emptyPhotosState 100 50 []).2.2
      (by decide) (by decide)⟩

/-- C10: on its cache-hit branch `getQueue` dereferences `stored.parameters`
without checking the store, so a state holding cached photos but no store
record makes the handler fail with a TypeError instead of responding; the
code maintains the guarding invariant because a successful `returnPhotos`
writes the media-item cache and the query store for the same user in the
same call, and that write preserves cache-implies-store coupling across all
users. -/
theorem c10_queue_cache_store_coupling (userId : String) (now : Nat) (st : PhotosState)
    (photosToLoad searchPageSize : Nat) (steps : List UpstreamStep) :
    (∀ photos, st.mediaItemCache.getItem userId now = some photos →
      st.storage.getItem userId = none →
      getQueue userId now st photosToLoad searchPageSize steps = Outcome.jsTypeError)
    ∧ (∀ data searchParameter, data.error = none → 0 < st.mediaItemCache.ttl →
        (returnPhotos userId data searchParameter now st).2.mediaItemCache.getItem userId now =
          some data.photos
        ∧ (returnPhotos userId data searchParameter now st).2.storage.getItem userId =
          some { parameters := stripRequestFields searchParameter })
    ∧ (∀ data searchParameter u t, data.error = none →
        (∀ w s, st.mediaItemCache.getItem w s ≠ none → st.storage.getItem w ≠ none) →
        (returnPhotos userId data searchParameter now st).2.mediaItemCache.getItem u t ≠ none →
        (returnPhotos userId data searchParameter now st).2.storage.getItem u ≠ none) := by
  refine ⟨?_, ?_, ?_⟩
  · intro photos hc hs
    simp [getQueue, hc, hs]
  · intro data searchParameter herr httl
    constructor
    · simp [returnPhotos, herr, Cache.getItem_setItem_self]
      omega
    · simp [returnPhotos, herr, storageGetItem_setItem_self]
  · intro data searchParameter u t herr hinv hc
    by_cases hu : u = userId
    · subst hu
      simp [returnPhotos, herr, storageGetItem_setItem_self]
    · simp only [returnPhotos, herr] at hc ⊢
      rw [Cache.getItem_setItem_ne _ _ _ _ _ _ hu] at hc
      rw [storageGetItem_setItem_ne _ _ _ _ hu]
      exact hinv u t hc

/-- Witness for C10: on the orphan state (cached photos for user1, empty
store) `getQueue` ends in a TypeError, while a successful `returnPhotos` on
that same state writes both the cache and the store for the user. -/
theorem c10_queue_cache_store_coupling_witness :
    getQueue ("user1") 0 orphanState 100 50 [] = Outcome.jsTypeError
    ∧ ((returnPhotos ("user1")
          { photos := [imgItem], parameters := emptySearchParameters, error := none }
          albumOnlyParameters 0 orphanState).2.mediaItemCache.getItem ("user1") 0 =
        some [imgItem]
      ∧ (returnPhotos ("user1")
          { photos := [imgItem], parameters := emptySearchParameters, error := none }
          albumOnlyParameters 0 orphanState).2.storage.getItem ("user1") =
        some { parameters := stripRequestFields albumOnlyParameters }) :=
  ⟨(c10_queue_cache_store_coupling ("user1") 0 orphanState 100 50 []).1
      [imgItem] (by decide) (by decide),
   (c10_queue_cache_store_coupling ("user1") 0 orphanState 100 50 []).2.1
      { photos := [imgItem], parameters := emptySearchParameters, error := none }
      albumOnlyParameters rfl (by decide)⟩

/-- C6: every failure raised during a fetcher loop is caught and turned into
data: any returned error originates from a failing step via `extractError`;
a failing call ends the loop at once, returning exactly the items accumulated
so far; and `extractError` takes the nested upstream payload when present and
otherwise builds `{name, code, message}` from the transport exception's
fields.  Both fetchers are total functions into a result value, so no
exception ever crosses their boundary. -/
theorem c6_fetcher_error_policy :
    (∀ photosToLoad steps photos parameters res,
        searchIterate photosToLoad steps photos parameters = some res →
        res.error = none
        ∨ ∃ e, UpstreamStep.fail e ∈ steps ∧ res.error = some (extractError e))
    ∧ (∀ photosToLoad e rest photos parameters,
        searchIterate photosToLoad (UpstreamStep.fail e :: rest) photos parameters =
          some { photos := photos, parameters := parameters,
                 error := some (extractError e) })
    ∧ (∀ steps albums parameters res,
        albumsIterate steps albums parameters = some res →
        res.error = none
        ∨ ∃ e, AlbumStep.fail e ∈ steps ∧ res.error = some (extractError e))
    ∧ (∀ e rest albums parameters,
        albumsIterate (AlbumStep.fail e :: rest) albums parameters =
          some { albums := albums, error := some (extractError e) })
    ∧ (∀ err : TransportException,
        (∀ s, err.nested = some s → extractError err = s)
        ∧ (err.nested = none →
            extractError err =
              { code := err.statusCode, name := some err.errName,
                message := some err.errMessage })) := by
  refine ⟨?_, ?_, ?_, ?_, ?_⟩
  · intro photosToLoad steps
    induction steps with
    | nil =>
      intro photos parameters res h
      simp [searchIterate] at h
    | cons s rest ih =>
      intro photos parameters res h
      cases s with
      | fail e =>
        simp only [searchIterate] at h
        cases h
        exact Or.inr ⟨e, List.mem_cons_self _ _, rfl⟩
      | ok r =>
        simp only [searchIterate] at h
        split at h
        · rcases ih _ _ _ h with h0 | ⟨e, he, herr⟩
          · exact Or.inl h0
          · exact Or.inr ⟨e, List.mem_cons_of_mem _ he, herr⟩
        · cases h
          exact Or.inl rfl
  · intro photosToLoad e rest photos parameters
    rfl
  · intro steps
    induction steps with
    | nil =>
      intro albums parameters res h
      simp [albumsIterate] at h
    | cons s rest ih =>
      intro albums parameters res h
      cases s with
      | fail e =>
        simp only [albumsIterate] at h
        cases h
        exact Or.inr ⟨e, List.mem_cons_self _ _, rfl⟩
      | ok r =>
        simp only [albumsIterate] at h
        split at h
        · rcases ih _ _ _ h with h0 | ⟨e, he, herr⟩
          · exact Or.inl h0
          · exact Or.inr ⟨e, List.mem_cons_of_mem _ he, herr⟩
        · cases h
          exact Or.inl rfl
  · intro e rest albums parameters
    rfl
  · intro err
    constructor
    · intro s hs
      simp [extractError, hs]
    · intro hn
      simp [extractError, hn]

/-- Witness for C6: a first-call transport failure returns the (here
pre-accumulated) items with the extracted error; the extraction of a bare
transport exception uses its own fields; and the general provenance
disjunction holds on that concrete run. -/
theorem c6_fetcher_error_policy_witness :
    searchIterate 5 (UpstreamStep.fail transportErr :: []) [imgItem] emptySearchParameters =
      some { photos := [imgItem], parameters := emptySearchParameters,
             error := some (extractError transportErr) }
    ∧ extractError transportErr =
      { code := none, name := some ("RequestError"),
        message := some ("connect ECONNREFUSED") }
    ∧ (({ photos := [imgItem], parameters := emptySearchParameters,
          error := some (extractError transportErr) } : SearchResult).error = none
      ∨ ∃ e, UpstreamStep.fail e ∈ [UpstreamStep.fail transportErr]
          ∧ ({ photos := [imgItem], parameters := emptySearchParameters,
               error := some (extractError transportErr) } : SearchResult).error =
            some (extractError e)) :=
  ⟨c6_fetcher_error_policy.2.1 5 transportErr [] [imgItem] emptySearchParameters,
   (c6_fetcher_error_policy.2.2.2.2 transportErr).2 rfl,
   c6_fetcher_error_policy.1 5 [UpstreamStep.fail transportErr] [imgItem]
     emptySearchParameters
     { photos := [imgItem], parameters := emptySearchParameters,
       error := some (extractError transportErr) } (by decide)⟩

/-- C7: for either of the app's fixed TTLs (3300000 ms for the media-item
cache, 600000 ms for the album cache), a `set` followed by a `get` returns
the value while less than the TTL has elapsed since the set and returns
absent once more than the TTL has elapsed, with expiry decided at read time
by the stored timestamp alone. -/
theorem c7_cache_ttl_roundtrip {α : Type} (c : Cache α) (userId : String) (v : α)
    (tSet tRead : Nat)
    (_httl : c.ttl = mediaItemCacheTtl ∨ c.ttl = albumCacheTtl) :
    (tRead < tSet + c.ttl → (c.setItem userId v tSet).getItem userId tRead = some v)
    ∧ (tSet + c.ttl < tRead → (c.setItem userId v tSet).getItem userId tRead = none) := by
  constructor
  · intro h
    rw [Cache.getItem_setItem_self, if_pos h]
  · intro h
    rw [Cache.getItem_setItem_self, if_neg (by omega)]

/-- Witness for C7: a media-item cache read 100 ms after the set returns the
value, a read 4000000 ms after misses it; an album cache read misses after
700000 ms. -/
theorem c7_cache_ttl_roundtrip_witness :
    ((emptyPhotosState.mediaItemCache.setItem ("user1") [imgItem] 0).getItem
        ("user1") 100 = some [imgItem])
    ∧ ((emptyPhotosState.mediaItemCache.setItem ("user1") [imgItem] 0).getItem
        ("user1") 4000000 = none)
    ∧ ((emptyAlbumCache.setItem ("user1") cachedAlbumsResult 0).getItem
        ("user1") 700000 = none) :=
  ⟨(c7_cache_ttl_roundtrip emptyPhotosState.mediaItemCache ("user1") [imgItem] 0 100
      (Or.inl (by decide))).1 (by decide),
   (c7_cache_ttl_roundtrip emptyPhotosState.mediaItemCache ("user1") [imgItem] 0 4000000
      (Or.inl (by decide))).2 (by decide),
   (c7_cache_ttl_roundtrip emptyAlbumCache ("user1") cachedAlbumsResult 0 700000
      (Or.inr (by decide))).2 (by decide)⟩

/-- C8: `/getAlbums` returns the cached album list on an album-cache hit;
on a miss it runs the album fetcher, whose loop continues exactly while a
continuation token remains (no minimum count), accumulating every truthy
album of every page; on success it caches the result, and on failure it
removes the user's album cache entry. -/
theorem c8_getAlbums_contract :
    (∀ (userId : String) (now : Nat) (c : Cache AlbumsResult)
        (albumPageSize : Nat) (steps : List AlbumStep) (d : AlbumsResult),
      c.getItem userId now = some d →
      getAlbums userId now c albumPageSize steps =
        Outcome.result ({ status := 200, body := AlbumsBody.albumsData d }, c))
    ∧ (∀ (userId : String) (now : Nat) (c : Cache AlbumsResult)
        (albumPageSize : Nat) (steps : List AlbumStep) (data : AlbumsResult)
        (e : StructuredError),
      c.getItem userId now = none →
      libraryApiGetAlbums albumPageSize steps = some data → data.error = some e →
      getAlbums userId now c albumPageSize steps =
        Outcome.result ({ status := errorStatus e, body := AlbumsBody.errorObject e },
          c.removeItem userId))
    ∧ (∀ (userId : String) (now : Nat) (c : Cache AlbumsResult)
        (albumPageSize : Nat) (steps : List AlbumStep) (data : AlbumsResult),
      c.getItem userId now = none →
      libraryApiGetAlbums albumPageSize steps = some data → data.error = none →
      getAlbums userId now c albumPageSize steps =
        Outcome.result ({ status := 200, body := AlbumsBody.albumsData data },
          c.setItem userId data now))
    ∧ (∀ (r : AlbumsResponse) (rest : List AlbumStep) (albums : List Album)
        (parameters : AlbumParameters),
      (r.nextPageToken ≠ none →
        albumsIterate (AlbumStep.ok r :: rest) albums parameters =
          albumsIterate rest (appendAlbums albums r)
            { parameters with pageToken := r.nextPageToken })
      ∧ (r.nextPageToken = none →
        albumsIterate (AlbumStep.ok r :: rest) albums parameters =
          some { albums := appendAlbums albums r, error := none }))
    ∧ (∀ (albums : List Album) (r : AlbumsResponse) (a : Album) (l : List RawAlbum),
      r.albums = some l → RawAlbum.album a ∈ l → a ∈ appendAlbums albums r) := by
  refine ⟨?_, ?_, ?_, ?_, ?_⟩
  · intro userId now c albumPageSize steps d hc
    simp [getAlbums, hc]
  · intro userId now c albumPageSize steps data e hc hfetch herr
    simp [getAlbums, hc, hfetch, herr]
  · intro userId now c albumPageSize steps data hc hfetch herr
    simp [getAlbums, hc, hfetch, herr]
  · intro r rest albums parameters
    constructor
    · intro htok
      simp only [albumsIterate]
      rw [if_pos]
      simpa using htok
    · intro htok
      simp only [albumsIterate]
      rw [if_neg]
      simp [htok]
  · intro albums r a l hl ha
    simp only [appendAlbums, hl]
    refine List.mem_append.mpr (Or.inr ?_)
    exact List.mem_filterMap.mpr ⟨RawAlbum.album a, ha, rfl⟩

/-- Witness for C8: a cache hit returns the cached result; a miss with a
failing upstream removes the cache entry; a miss with a one-page upstream
caches and returns the one truthy album (the sparse entry is dropped); the
stopping equation holds on that page; and the album of that page is
accumulated. -/
theorem c8_getAlbums_contract_witness :
    getAlbums ("user1") 0 warmAlbumCache 20 [] =
      Outcome.result ({ status := 200, body := AlbumsBody.albumsData cachedAlbumsResult },
        warmAlbumCache)
    ∧ getAlbums ("user1") 0 emptyAlbumCache 20 [AlbumStep.fail transportErr] =
      Outcome.result ({ status := errorStatus (extractError transportErr),
                        body := AlbumsBody.errorObject (extractError transportErr) },
        emptyAlbumCache.removeItem ("user1"))
    ∧ getAlbums ("user1") 0 emptyAlbumCache 20 [AlbumStep.ok albumsPage] =
      Outcome.result ({ status := 200,
                        body := AlbumsBody.albumsData { albums := [albumA], error := none } },
        emptyAlbumCache.setItem ("user1") { albums := [albumA], error := none } 0)
    ∧ albumsIterate (AlbumStep.ok albumsPage :: []) [] { pageSize := some 20, pageToken := none } =
      some { albums := appendAlbums [] albumsPage, error := none }
    ∧ albumA ∈ appendAlbums [] albumsPage :=
  ⟨c8_getAlbums_contract.1 ("user1") 0 warmAlbumCache 20 [] cachedAlbumsResult (by decide),
   c8_getAlbums_contract.2.1 ("user1") 0 emptyAlbumCache 20 [AlbumStep.fail transportErr]
     { albums := [], error := some (extractError transportErr) } (extractError transportErr)
     (by decide) (by decide) (by decide),
   c8_getAlbums_contract.2.2.1 ("user1") 0 emptyAlbumCache 20 [AlbumStep.ok albumsPage]
     { albums := [albumA], error := none } (by decide) (by decide) (by decide),
   (c8_getAlbums_contract.2.2.2.1 albumsPage [] []
     { pageSize := some 20, pageToken := none }).2 (by decide),
   c8_getAlbums_contract.2.2.2.2 [] albumsPage albumA
     [RawAlbum.album albumA, RawAlbum.nullAlbum] (by decide) (by decide)⟩

/-- C9, counterexample: at a concrete 404 error the outward status is the
code, but the body `returnError` sends is the bare error object
(`res.send(data.error)`, app.js:427), whose shape differs from the
`{error: {code, name, message}}` wrapper the claim states. -/
theorem c9_counterexample :
    (returnError sampleError).status = 404
    ∧ (returnError sampleError).body = QueueBody.errorObject sampleError
    ∧ returnErrorBodyShape sampleError ≠ specErrorBodyShape sampleError := by
  refine ⟨rfl, rfl, ?_⟩
  decide

/-- C9, amended: the error response body is the error object itself —
`{code, name, message}`, not wrapped under an `error` key — and the outward
status equals the error's code, with 500 used when the code is absent (or
zero, which JS `||` treats the same as absent). -/
theorem c9_error_response_contract (e : StructuredError) :
    (returnError e).status = errorStatus e
    ∧ (returnError e).body = QueueBody.errorObject e
    ∧ returnErrorBodyShape e = ErrorBodyShape.plainError e.code e.name e.message
    ∧ (e.code = none → errorStatus e = 500)
    ∧ (∀ cd, e.code = some cd → cd ≠ 0 → errorStatus e = cd)
    ∧ (e.code = some 0 → errorStatus e = 500) := by
  refine ⟨rfl, rfl, rfl, ?_, ?_, ?_⟩
  · intro h
    simp [errorStatus, h]
  · intro cd h hne
    simp [errorStatus, h, hne]
  · intro h
    simp [errorStatus, h]

/-- Witness for the amended C9: a 404 error keeps its code as the status and
its bare shape as the body; a codeless transport error is surfaced with
status 500. -/
theorem c9_error_response_contract_witness :
    errorStatus sampleError = 404
    ∧ returnErrorBodyShape sampleError =
      ErrorBodyShape.plainError sampleError.code sampleError.name sampleError.message
    ∧ errorStatus codelessError = 500 :=
  ⟨(c9_error_response_contract sampleError).2.2.2.2.1 404 rfl (by decide),
   (c9_error_response_contract sampleError).2.2.1,
   (c9_error_response_contract codelessError).2.2.2.1 rfl⟩

end PhotoFrame
